import Mathlib

/-!
Verification of the SQL-safety validator and the agent orchestration loop of
the natural-language-to-SQL system (source: `src/backend/src/tools.py`,
`src/backend/src/agent.py`, `src/config.py`).

Python strings are modelled as lists of Unicode code points (`List Nat`).
Python's `str.upper`, `str.lower`, `str.strip` and `str.rstrip(';')` are
modelled with their ASCII semantics, which is what every string handled by
the validator and orchestrator exercises.
-/

namespace SqlAgent

/-- Code points of a string literal. -/
def str (s : String) : List Nat := s.data.map Char.toNat

/-- ASCII uppercase of a single code point, the per-character action of
Python's `str.upper` on the ASCII range. -/
def upperChar (c : Nat) : Nat := if 97 ≤ c ∧ c ≤ 122 then c - 32 else c

/-- ASCII lowercase of a single code point (Python `str.lower`). -/
def lowerChar (c : Nat) : Nat := if 65 ≤ c ∧ c ≤ 90 then c + 32 else c

/-- Python `str.upper` (ASCII fragment). -/
def pyUpper (s : List Nat) : List Nat := s.map upperChar

/-- Python `str.lower` (ASCII fragment). -/
def pyLower (s : List Nat) : List Nat := s.map lowerChar

/-- The ASCII code points Python `str.strip` removes
(space, tab, newline, vertical tab, form feed, carriage return,
file/group/record/unit separators). -/
def isPySpace (c : Nat) : Bool :=
  c = 32 || (9 ≤ c && c ≤ 13) || (28 ≤ c && c ≤ 31)

/-- Python `str.strip()`: remove leading and trailing whitespace. -/
def pyStrip (s : List Nat) : List Nat :=
  (s.dropWhile isPySpace).rdropWhile isPySpace

/-- Python `sql.rstrip(';')`: remove all trailing semicolons. -/
def pyRstripSemi (s : List Nat) : List Nat := s.rdropWhile (· == 59)

/-- Python's `needle in hay` substring test. -/
def pyIn (needle hay : List Nat) : Bool := decide (needle <:+: hay)

/-- Python's `hay.startswith(pre)` test. -/
def pyStartsWith (hay pre : List Nat) : Bool := decide (pre <+: hay)

/-! ### Configuration (`src/config.py`) -/

/-- `DEFAULT_LIMIT = 100` — default LIMIT for queries without one. -/
def DEFAULT_LIMIT : Nat := 100

/-- `BLOCKED_KEYWORDS` — the fixed blocklist of mutating keywords. -/
def BLOCKED_KEYWORDS : List (List Nat) :=
  [str "INSERT", str "UPDATE", str "DELETE", str "DROP",
   str "ALTER", str "CREATE", str "TRUNCATE"]

/-! ### The SQL safety validator (`DatabaseTools.validate_sql`, tools.py lines 197-232) -/

/-- The `(is_valid, message, modified_sql)` triple returned by `validate_sql`. -/
structure ValidateResult where
  is_valid : Bool
  message : List Nat
  modified_sql : Option (List Nat)
deriving DecidableEq, Repr

/-- Rejection message naming a blocked keyword. -/
def blockedMessage (kw : List Nat) : List Nat :=
  str "❌ Blocked operation: " ++ kw ++ str ". Only read-only queries allowed."

/-- Validation message reporting the LIMIT substitution. -/
def addedLimitMessage : List Nat :=
  str "✓ Valid. Added LIMIT " ++ str (Nat.repr DEFAULT_LIMIT) ++ str " for safety."

/-- Plain acceptance message. -/
def validMessage : List Nat := str "✓ Valid SQL query."

/-- The LIMIT-appended rewrite of an accepted statement:
Python `f"{sql.rstrip(';')} LIMIT {DEFAULT_LIMIT}"`. -/
def appendLimit (sql : List Nat) : List Nat :=
  pyRstripSemi sql ++ str " LIMIT " ++ str (Nat.repr DEFAULT_LIMIT)

/-- `DatabaseTools.validate_sql` (tools.py lines 197-232).

The `sqlparse.parse(sql)` emptiness check of the source returns no statements
only for empty input, and is unreachable in any branch the earlier
SELECT/WITH-prefix check lets through; it is modelled as an emptiness test. -/
def validate_sql (sql : List Nat) : ValidateResult :=
  let sql_upper := pyStrip (pyUpper sql)
  match BLOCKED_KEYWORDS.find? (fun kw => pyIn kw sql_upper) with
  | some kw => ⟨false, blockedMessage kw, none⟩
  | none =>
    if !pyStartsWith sql_upper (str "SELECT") && !pyStartsWith sql_upper (str "WITH") then
      ⟨false, str "❌ Only SELECT queries are allowed.", none⟩
    else if sql.isEmpty then
      ⟨false, str "❌ Invalid SQL syntax.", none⟩
    else if !pyIn (str "LIMIT") sql_upper then
      if !pyIn (str "COUNT(") sql_upper && !pyIn (str "SUM(") sql_upper
          && !pyIn (str "AVG(") sql_upper then
        ⟨true, addedLimitMessage, some (appendLimit sql)⟩
      else
        ⟨true, validMessage, some sql⟩
    else
      ⟨true, validMessage, some sql⟩

example : validate_sql (str "SELECT * FROM users") =
    ⟨true, addedLimitMessage, some (str "SELECT * FROM users LIMIT 100")⟩ := by decide

example : validate_sql (str "DROP TABLE users") =
    ⟨false, blockedMessage (str "DROP"), none⟩ := by decide

example : validate_sql (str "SELECT COUNT(*) FROM users") =
    ⟨true, validMessage, some (str "SELECT COUNT(*) FROM users")⟩ := by decide

/-! ### Substring lemmas

`sub` abbreviates "substring of" (`List.IsInfix`), `pre` "prefix of",
`suf` "suffix of" in the lemma names below. -/

/-- A substring whose head survives `p` survives `dropWhile p`. -/
theorem sub_dropWhile {p : Nat → Bool} {c : Nat} {t l : List Nat}
    (hc : p c = false) (h : c :: t <:+: l) : c :: t <:+: l.dropWhile p := by
  induction l with
  | nil => simp at h
  | cons a l ih =>
    rw [ List.infix_cons_iff] at h
    rcases h with h | h
    · have ha : c = a := (List.cons_prefix_cons.mp h).1
      subst ha
      simp only [List.dropWhile_cons, hc]
      exact h.isInfix
    · by_cases hpa : p a
      · simpa [List.dropWhile_cons, hpa] using ih h
      · simp only [List.dropWhile_cons, hpa, Bool.false_eq_true, if_false]
        exact h.trans (List.suffix_cons a l).isInfix

/-- A suffix whose head survives `p` survives `dropWhile p`. -/
theorem suf_dropWhile {p : Nat → Bool} {c : Nat} {t l : List Nat}
    (hc : p c = false) (h : c :: t <:+ l) : c :: t <:+ l.dropWhile p := by
  induction l with
  | nil => simp at h
  | cons a l ih =>
    rw [List.suffix_cons_iff] at h
    rcases h with h | h
    · injection h with h1 h2
      subst h1; subst h2
      simp [List.dropWhile_cons, hc]
    · by_cases hpa : p a
      · simpa [List.dropWhile_cons, hpa] using ih h
      · simp only [List.dropWhile_cons, hpa, Bool.false_eq_true, if_false]
        exact h.trans (List.suffix_cons a l)

/-- A nonempty substring free of `p`-characters survives stripping both ends. -/
theorem sub_strip {p : Nat → Bool} {kw l : List Nat} (hne : kw ≠ [])
    (hkw : ∀ x ∈ kw, p x = false) (h : kw <:+: l) :
    kw <:+: (l.dropWhile p).rdropWhile p := by
  obtain ⟨c, t, rfl⟩ := List.exists_cons_of_ne_nil hne
  have h1 : c :: t <:+: l.dropWhile p := sub_dropWhile (hkw c (List.mem_cons_self c t)) h
  have h2 : (c :: t).reverse <:+: (l.dropWhile p).reverse := List.reverse_infix.mpr h1
  obtain ⟨c2, t2, hrev⟩ := List.exists_cons_of_ne_nil
    (fun hno => by simp at hno : (c :: t).reverse ≠ [])
  have hc2 : p c2 = false := hkw c2 (by
    have : c2 ∈ (c :: t).reverse := by rw [hrev]; exact List.mem_cons_self c2 t2
    rw [List.mem_reverse] at this
    exact this)
  rw [hrev] at h2
  have h3 := sub_dropWhile hc2 h2
  rw [List.rdropWhile]
  apply List.reverse_infix.mp
  rw [List.reverse_reverse, hrev]
  exact h3

/-- Instantiation for Python `.strip()`: a nonempty whitespace-free substring
survives stripping. -/
theorem sub_pyStrip {kw l : List Nat} (hne : kw ≠ [])
    (hkw : ∀ x ∈ kw, isPySpace x = false) (h : kw <:+: l) : kw <:+: pyStrip l :=
  sub_strip hne hkw h

/-- The stripped string is a substring of the original. -/
theorem pyStrip_sub (l : List Nat) : pyStrip l <:+: l :=
  ( List.rdropWhile_prefix isPySpace (l.dropWhile isPySpace)).isInfix.trans
    (List.dropWhile_suffix isPySpace).isInfix

/-- A `p`-free prefix of `l₁ ++ j :: l₂` with `p`-junction `j` is a prefix of `l₁`. -/
theorem pre_junction {p : Nat → Bool} {j : Nat} (hj : p j = true) :
    ∀ (kw l₁ l₂ : List Nat), (∀ x ∈ kw, p x = false) → kw <+: l₁ ++ j :: l₂ → kw <+: l₁ := by
  intro kw
  induction kw with
  | nil => intro l₁ l₂ _ _; exact List.nil_prefix
  | cons c kw ih =>
    intro l₁ l₂ hkw h
    cases l₁ with
    | nil =>
      rw [List.nil_append, List.cons_prefix_cons] at h
      have hc : p c = false := hkw c (List.mem_cons_self c kw)
      rw [h.1, hj] at hc
      cases hc
    | cons a l₁ =>
      rw [List.cons_append, List.cons_prefix_cons] at h
      exact List.cons_prefix_cons.mpr
        ⟨h.1, ih l₁ l₂ (fun x hx => hkw x (List.mem_cons_of_mem c hx)) h.2⟩

/-- A nonempty `p`-free substring of `l₁ ++ j :: l₂` with `p`-junction `j`
lies entirely in `l₁` or entirely in `l₂`. -/
theorem sub_junction {p : Nat → Bool} {j : Nat} (hj : p j = true) {kw : List Nat}
    (hne : kw ≠ []) (hkw : ∀ x ∈ kw, p x = false) :
    ∀ (l₁ l₂ : List Nat), kw <:+: l₁ ++ j :: l₂ → kw <:+: l₁ ∨ kw <:+: l₂ := by
  intro l₁
  induction l₁ with
  | nil =>
    intro l₂ h
    rw [List.nil_append, List.infix_cons_iff] at h
    rcases h with h | h
    · obtain ⟨c, t, rfl⟩ := List.exists_cons_of_ne_nil hne
      rw [List.cons_prefix_cons] at h
      have hc := hkw c (List.mem_cons_self c t)
      rw [h.1, hj] at hc
      cases hc
    · exact Or.inr h
  | cons a l₁ ih =>
    intro l₂ h
    rw [List.cons_append, List.infix_cons_iff] at h
    rcases h with h | h
    · exact Or.inl (pre_junction hj kw (a :: l₁) l₂ hkw h).isInfix
    · rcases ih l₂ h with h' | h'
      · exact Or.inl (h'.trans (List.suffix_cons a l₁).isInfix)
      · exact Or.inr h'

/-- A nonempty `p`-free prefix survives `rdropWhile p`. -/
theorem pre_rdropWhile {p : Nat → Bool} {kw l : List Nat} (hne : kw ≠ [])
    (hkw : ∀ x ∈ kw, p x = false) (h : kw <+: l) : kw <+: l.rdropWhile p := by
  obtain ⟨c, t, hrev⟩ := List.exists_cons_of_ne_nil
    (fun hno => hne (by simpa using hno) : kw.reverse ≠ [])
  have h1 : kw.reverse <:+ l.reverse := List.reverse_suffix.mpr h
  rw [hrev] at h1
  have hc : p c = false := hkw c (by
    have : c ∈ kw.reverse := by rw [hrev]; exact List.mem_cons_self c t
    simpa using this)
  have h2 := suf_dropWhile hc h1
  rw [List.rdropWhile]
  apply List.reverse_suffix.mp
  rw [List.reverse_reverse, hrev]
  exact h2

/-! ### Claim C1 -/

/-- C1: every SQL string whose uppercased form contains a blocked keyword
anywhere is rejected by `validate_sql` with `is_valid = false`, a `none`
effective SQL, and a message naming a blocked keyword occurring in the
string. -/
theorem blocked_keyword_rejected (sql : List Nat)
    (h : ∃ kw ∈ BLOCKED_KEYWORDS, kw <:+: pyUpper sql) :
    (validate_sql sql).is_valid = false ∧
    (validate_sql sql).modified_sql = none ∧
    ∃ kw ∈ BLOCKED_KEYWORDS, kw <:+: pyUpper sql ∧ kw <:+: (validate_sql sql).message := by
  have hprops : ∀ kw ∈ BLOCKED_KEYWORDS, kw ≠ [] ∧ ∀ x ∈ kw, isPySpace x = false := by decide
  obtain ⟨kw, hmem, hsub⟩ := h
  have hstrip : kw <:+: pyStrip (pyUpper sql) :=
    sub_pyStrip (hprops kw hmem).1 (hprops kw hmem).2 hsub
  have hsome : (BLOCKED_KEYWORDS.find? fun k => pyIn k (pyStrip (pyUpper sql))).isSome :=
    List.find?_isSome.mpr ⟨kw, hmem, decide_eq_true hstrip⟩
  obtain ⟨kw₀, hfind⟩ := Option.isSome_iff_exists.mp hsome
  have hmem₀ : kw₀ ∈ BLOCKED_KEYWORDS := List.mem_of_find?_eq_some hfind
  have hp := List.find?_some hfind
  have hsubu : kw₀ <:+: pyStrip (pyUpper sql) := of_decide_eq_true hp
  have hsub₀ : kw₀ <:+: pyUpper sql := hsubu.trans (pyStrip_sub (pyUpper sql))
  have hval : validate_sql sql = ⟨false, blockedMessage kw₀, none⟩ := by
    simp only [validate_sql]
    rw [hfind]
  rw [hval]
  refine ⟨rfl, rfl, kw₀, hmem₀, hsub₀, ?_⟩
  show kw₀ <:+: blockedMessage kw₀
  unfold blockedMessage
  exact List.infix_append _ _ _

/-- Witness for C1 at a concrete mixed-case input. -/
theorem blocked_keyword_rejected_witness :
    (∃ kw ∈ BLOCKED_KEYWORDS, kw <:+: pyUpper (str "Delete from users")) ∧
    ((validate_sql (str "Delete from users")).is_valid = false ∧
     (validate_sql (str "Delete from users")).modified_sql = none ∧
     ∃ kw ∈ BLOCKED_KEYWORDS, kw <:+: pyUpper (str "Delete from users") ∧
       kw <:+: (validate_sql (str "Delete from users")).message) :=
  ⟨by decide, blocked_keyword_rejected (str "Delete from users") (by decide)⟩

/-! ### Claim C5 -/

theorem appendLimit_eq (sql : List Nat) :
    appendLimit sql = pyRstripSemi sql ++ str " LIMIT 100" := by
  unfold appendLimit
  rw [List.append_assoc]
  congr 1

/-- Evaluation of `validate_sql` once the blocklist and prefix checks pass. -/
theorem validate_sql_accepted (sql : List Nat)
    (hblock : ∀ kw ∈ BLOCKED_KEYWORDS, ¬kw <:+: pyStrip (pyUpper sql))
    (hsel : str "SELECT" <+: pyStrip (pyUpper sql) ∨ str "WITH" <+: pyStrip (pyUpper sql)) :
    validate_sql sql =
      if !pyIn (str "LIMIT") (pyStrip (pyUpper sql)) then
        if !pyIn (str "COUNT(") (pyStrip (pyUpper sql))
            && !pyIn (str "SUM(") (pyStrip (pyUpper sql))
            && !pyIn (str "AVG(") (pyStrip (pyUpper sql)) then
          ⟨true, addedLimitMessage, some (appendLimit sql)⟩
        else ⟨true, validMessage, some sql⟩
      else ⟨true, validMessage, some sql⟩ := by
  have hfind : BLOCKED_KEYWORDS.find? (fun k => pyIn k (pyStrip (pyUpper sql))) = none := by
    rw [List.find?_eq_none]
    intro k hk
    simpa [pyIn] using hblock k hk
  have hpre : (!pyStartsWith (pyStrip (pyUpper sql)) (str "SELECT")
      && !pyStartsWith (pyStrip (pyUpper sql)) (str "WITH")) = false := by
    rcases hsel with h | h <;> simp [pyStartsWith, h]
  have hne : sql.isEmpty = false := by
    cases sql with
    | nil =>
      exfalso
      rcases hsel with h | h <;> revert h <;> decide
    | cons a l => rfl
  simp only [validate_sql]
  rw [hfind, hpre, hne]
  simp

/-- C5: for statements passing the blocklist and beginning (case-insensitively,
whitespace-trimmed) with SELECT or WITH, `LIMIT 100` is appended to the
trailing-semicolon-stripped statement with the substitution reported in the
message exactly when the statement contains no LIMIT and none of
COUNT(/SUM(/AVG(; otherwise the effective SQL is the input unchanged. -/
theorem limit_appended_iff (sql : List Nat)
    (hblock : ∀ kw ∈ BLOCKED_KEYWORDS, ¬kw <:+: pyStrip (pyUpper sql))
    (hsel : str "SELECT" <+: pyStrip (pyUpper sql) ∨ str "WITH" <+: pyStrip (pyUpper sql)) :
    (validate_sql sql =
        ⟨true, addedLimitMessage, some (pyRstripSemi sql ++ str " LIMIT 100")⟩ ↔
      ¬str "LIMIT" <:+: pyStrip (pyUpper sql) ∧ ¬str "COUNT(" <:+: pyStrip (pyUpper sql) ∧
      ¬str "SUM(" <:+: pyStrip (pyUpper sql) ∧ ¬str "AVG(" <:+: pyStrip (pyUpper sql)) ∧
    ((str "LIMIT" <:+: pyStrip (pyUpper sql) ∨ str "COUNT(" <:+: pyStrip (pyUpper sql) ∨
      str "SUM(" <:+: pyStrip (pyUpper sql) ∨ str "AVG(" <:+: pyStrip (pyUpper sql)) →
      validate_sql sql = ⟨true, validMessage, some sql⟩) := by
  have hval := validate_sql_accepted sql hblock hsel
  rw [← appendLimit_eq]
  have hmsg : addedLimitMessage ≠ validMessage := by decide
  by_cases hl : str "LIMIT" <:+: pyStrip (pyUpper sql) <;>
    by_cases hc : str "COUNT(" <:+: pyStrip (pyUpper sql) <;>
    by_cases hs : str "SUM(" <:+: pyStrip (pyUpper sql) <;>
    by_cases ha : str "AVG(" <:+: pyStrip (pyUpper sql) <;>
    simp only [pyIn, hl, hc, hs, ha, decide_True, decide_False, Bool.not_true,
      Bool.not_false, Bool.false_and, Bool.and_self, Bool.true_and, Bool.and_false,
      Bool.and_true, if_true, if_false, Bool.false_eq_true, decide_eq_true_eq] at hval <;>
    rw [hval] <;>
    simp [hl, hc, hs, ha, ValidateResult.mk.injEq, hmsg, Ne.symm hmsg]

/-- Witness for C5: a plain SELECT without LIMIT or aggregates gets the cap
appended; one with COUNT( is passed through unchanged. -/
theorem limit_appended_iff_witness :
    (∀ kw ∈ BLOCKED_KEYWORDS, ¬kw <:+: pyStrip (pyUpper (str "SELECT * FROM users;"))) ∧
    (str "SELECT" <+: pyStrip (pyUpper (str "SELECT * FROM users;")) ∨
      str "WITH" <+: pyStrip (pyUpper (str "SELECT * FROM users;"))) ∧
    validate_sql (str "SELECT * FROM users;") =
      ⟨true, addedLimitMessage, some (pyRstripSemi (str "SELECT * FROM users;") ++ str " LIMIT 100")⟩ :=
  ⟨by decide, by decide,
    ((limit_appended_iff (str "SELECT * FROM users;") (by decide) (by decide)).1).mpr
      (by decide)⟩

/-! ### Claim C10 -/

/-- C10: blocklist matching is substring-based over the whole uppercased
string, so the harmless read-only statement `SELECT created_at FROM users`
(its blocked keyword occurring only inside the identifier `created_at`) is
rejected, with the message naming CREATE. -/
theorem identifier_substring_rejected :
    str "SELECT" <+: pyStrip (pyUpper (str "SELECT created_at FROM users")) ∧
    (validate_sql (str "SELECT created_at FROM users")).is_valid = false ∧
    (validate_sql (str "SELECT created_at FROM users")).modified_sql = none ∧
    str "CREATE" <:+: (validate_sql (str "SELECT created_at FROM users")).message := by
  decide

/-! ### Claim C6 -/

theorem rdropWhile_append_rtakeWhile (p : Nat → Bool) (l : List Nat) :
    l.rdropWhile p ++ l.rtakeWhile p = l := by
  rw [List.rdropWhile, List.rtakeWhile, ← List.reverse_append,
    List.takeWhile_append_dropWhile, List.reverse_reverse]

theorem pyUpper_append (a b : List Nat) : pyUpper (a ++ b) = pyUpper a ++ pyUpper b :=
  List.map_append _ a b

/-- A whitespace-free, semicolon-free prefix of the stripped uppercase of
`sql` (such as `SELECT` or `WITH`) is still such a prefix after the LIMIT
rewrite appends `" LIMIT 100"` to the semicolon-stripped statement. -/
theorem pre_strip_appendLimit {kw sql : List Nat} (hne : kw ≠ [])
    (hsp : ∀ x ∈ kw, isPySpace x = false) (hsemi : ∀ x ∈ kw, (x == 59) = false)
    (h : kw <+: pyStrip (pyUpper sql)) :
    kw <+: pyStrip (pyUpper (pyRstripSemi sql ++ str " LIMIT 100")) := by
  have hx : pyUpper (str " LIMIT 100") = str " LIMIT 100" := by decide
  have hU : pyUpper sql = pyUpper (pyRstripSemi sql) ++ pyUpper (sql.rtakeWhile (· == 59)) := by
    conv_lhs => rw [show sql = pyRstripSemi sql ++ sql.rtakeWhile (· == 59) from
      (rdropWhile_append_rtakeWhile (· == 59) sql).symm]
    exact pyUpper_append _ _
  have hT : ∀ x ∈ pyUpper (sql.rtakeWhile (· == 59)), x = 59 := by
    intro x hx'
    obtain ⟨y, hy, rfl⟩ := List.mem_map.mp hx'
    have hy59 : (y == 59) = true := @List.mem_rtakeWhile_imp _ (fun x => x == 59) sql y hy
    have : y = 59 := by simpa using hy59
    subst this
    decide
  have hA : kw <+: List.dropWhile isPySpace (pyUpper sql) :=
    h.trans ( List.rdropWhile_prefix _ _)
  rw [hU] at hA
  by_cases hm : (List.dropWhile isPySpace (pyUpper (pyRstripSemi sql))).isEmpty = true
  · exfalso
    rw [List.dropWhile_append] at hA
    simp only [hm, if_true] at hA
    have hTd : List.dropWhile isPySpace (pyUpper (sql.rtakeWhile (· == 59)))
        = pyUpper (sql.rtakeWhile (· == 59)) := by
      cases hT' : pyUpper (sql.rtakeWhile (· == 59)) with
      | nil => rfl
      | cons b T' =>
        have hb : b = 59 := hT b (by rw [hT']; exact List.mem_cons_self b T')
        rw [List.dropWhile_cons, hb]
        simp [show isPySpace 59 = false from by decide]
    rw [hTd] at hA
    obtain ⟨c, t, rfl⟩ := List.exists_cons_of_ne_nil hne
    cases hT' : pyUpper (sql.rtakeWhile (· == 59)) with
    | nil =>
      rw [hT'] at hA
      simp at hA
    | cons b T' =>
      rw [hT'] at hA
      rw [List.cons_prefix_cons] at hA
      have hb : b = 59 := hT b (by rw [hT']; exact List.mem_cons_self b T')
      have hc : (c == 59) = false := hsemi c (List.mem_cons_self c t)
      rw [hA.1.symm] at hb
      rw [hb] at hc
      simp at hc
  · rw [List.dropWhile_append] at hA
    simp only [hm, if_false] at hA
    have hkwC : kw <+: List.dropWhile isPySpace (pyUpper (pyRstripSemi sql)) := by
      cases hT' : pyUpper (sql.rtakeWhile (· == 59)) with
      | nil =>
        rw [hT', List.append_nil] at hA
        exact hA
      | cons b T' =>
        have hb : b = 59 := hT b (by rw [hT']; exact List.mem_cons_self b T')
        rw [hT', hb] at hA
        exact pre_junction rfl kw _ T' hsemi hA
    have hgoal1 : kw <+:
        List.dropWhile isPySpace (pyUpper (pyRstripSemi sql ++ str " LIMIT 100")) := by
      rw [pyUpper_append, hx, List.dropWhile_append]
      simp only [hm, if_false]
      exact hkwC.trans (List.prefix_append _ _)
    exact pre_rdropWhile hne hsp hgoal1

/-- C6: validation is idempotent with respect to the LIMIT rewrite: for every
statement accepted by `validate_sql`, validating the returned effective SQL a
second time accepts it and returns it unchanged (no second LIMIT clause). -/
theorem validate_idempotent (sql e : List Nat)
    (hv : (validate_sql sql).is_valid = true)
    (he : (validate_sql sql).modified_sql = some e) :
    (validate_sql e).is_valid = true ∧ (validate_sql e).modified_sql = some e := by
  cases hfind : BLOCKED_KEYWORDS.find? (fun k => pyIn k (pyStrip (pyUpper sql))) with
  | some kw₀ =>
    exfalso
    have hval : validate_sql sql = ⟨false, blockedMessage kw₀, none⟩ := by
      simp only [validate_sql]
      rw [hfind]
    rw [hval] at hv
    exact Bool.noConfusion hv
  | none =>
    have hblock : ∀ kw ∈ BLOCKED_KEYWORDS, ¬kw <:+: pyStrip (pyUpper sql) := by
      intro k hk hbad
      exact (List.find?_eq_none.mp hfind k hk) (decide_eq_true hbad)
    by_cases hpre : (!pyStartsWith (pyStrip (pyUpper sql)) (str "SELECT")
        && !pyStartsWith (pyStrip (pyUpper sql)) (str "WITH")) = true
    · exfalso
      have hval : validate_sql sql = ⟨false, str "❌ Only SELECT queries are allowed.", none⟩ := by
        simp only [validate_sql]
        rw [hfind, if_pos hpre]
      rw [hval] at hv
      exact Bool.noConfusion hv
    · have hsel : str "SELECT" <+: pyStrip (pyUpper sql)
          ∨ str "WITH" <+: pyStrip (pyUpper sql) := by
        simp only [pyStartsWith, Bool.and_eq_true, Bool.not_eq_true', decide_eq_false_iff_not,
          not_and_or, not_not] at hpre
        simpa using hpre
      have hval := validate_sql_accepted sql hblock hsel
      cases hlim : pyIn (str "LIMIT") (pyStrip (pyUpper sql)) with
      | true =>
        have he' : sql = e := by
          rw [hval] at he
          simp only [hlim, Bool.not_true, Bool.false_eq_true, if_false,
            Option.some.injEq] at he
          exact he
        rw [← he']
        rw [hval]
        simp [hlim]
      | false =>
        cases hagg : (!pyIn (str "COUNT(") (pyStrip (pyUpper sql))
            && !pyIn (str "SUM(") (pyStrip (pyUpper sql))
            && !pyIn (str "AVG(") (pyStrip (pyUpper sql))) with
        | false =>
          have he' : sql = e := by
            rw [hval] at he
            simp only [hlim, hagg, Bool.not_false, Bool.false_eq_true, if_true, if_false,
              Option.some.injEq] at he
            exact he
          rw [← he']
          rw [hval]
          simp [hlim, hagg]
        | true =>
          have he' : e = appendLimit sql := by
            rw [hval] at he
            simp only [hlim, hagg, Bool.not_false, if_true, Option.some.injEq] at he
            exact he.symm
          have heq : e = pyRstripSemi sql ++ str " LIMIT 100" := by
            rw [he', appendLimit_eq]
          have hkb : ∀ kw ∈ BLOCKED_KEYWORDS, kw ≠ [] ∧ (∀ x ∈ kw, isPySpace x = false) ∧
              ¬kw <:+: str "LIMIT 100" := by decide
          have hUe : pyUpper e = pyUpper (pyRstripSemi sql) ++ (32 :: str "LIMIT 100") := by
            rw [heq, pyUpper_append]
            congr 1
          have hpm : pyUpper (pyRstripSemi sql) <+: pyUpper sql := by
            have hr : pyRstripSemi sql <+: sql := List.rdropWhile_prefix _ _
            obtain ⟨t, ht⟩ := hr
            exact ⟨pyUpper t, by rw [← pyUpper_append, ht]⟩
          have hblock' : ∀ kw ∈ BLOCKED_KEYWORDS, ¬kw <:+: pyStrip (pyUpper e) := by
            intro k hk hbad
            have h1 : k <:+: pyUpper e := hbad.trans (pyStrip_sub _)
            rw [hUe] at h1
            rcases sub_junction (by decide : isPySpace 32 = true) (hkb k hk).1
                (hkb k hk).2.1 _ _ h1 with h2 | h2
            · have h3 : k <:+: pyUpper sql := h2.trans hpm.isInfix
              exact hblock k hk (sub_pyStrip (hkb k hk).1 (hkb k hk).2.1 h3)
            · exact (hkb k hk).2.2 h2
          have hsel' : str "SELECT" <+: pyStrip (pyUpper e)
              ∨ str "WITH" <+: pyStrip (pyUpper e) := by
            rw [heq]
            rcases hsel with h | h
            · exact Or.inl (pre_strip_appendLimit (by decide) (by decide) (by decide) h)
            · exact Or.inr (pre_strip_appendLimit (by decide) (by decide) (by decide) h)
          have hlim' : pyIn (str "LIMIT") (pyStrip (pyUpper e)) = true := by
            apply decide_eq_true
            apply sub_pyStrip (by decide) (by decide)
            rw [hUe]
            have hin : str "LIMIT" <:+: (32 :: str "LIMIT 100") := by decide
            exact hin.trans (List.suffix_append _ _).isInfix
          have hval' := validate_sql_accepted e hblock' hsel'
          rw [hval']
          simp [hlim']

/-- Witness for C6: revalidating the LIMIT-rewritten form of a plain SELECT
accepts it unchanged. -/
theorem validate_idempotent_witness :
    (validate_sql (str "SELECT * FROM users")).is_valid = true ∧
    (validate_sql (str "SELECT * FROM users")).modified_sql
      = some (str "SELECT * FROM users LIMIT 100") ∧
    (validate_sql (str "SELECT * FROM users LIMIT 100")).is_valid = true ∧
    (validate_sql (str "SELECT * FROM users LIMIT 100")).modified_sql
      = some (str "SELECT * FROM users LIMIT 100") :=
  ⟨by decide, by decide,
    validate_idempotent (str "SELECT * FROM users") (str "SELECT * FROM users LIMIT 100")
      (by decide) (by decide)⟩

/-! ### Python value model for tool results and dispatch -/

/-- Python values flowing through tool-result dictionaries. Numbers the
source computes (`row_count`, lengths, step indices) are modelled as `Nat`;
the rounded wall-clock `execution_time` float is modelled as an opaque
oracle-supplied number. -/
inductive PyVal where
  | s (v : List Nat)
  | b (v : Bool)
  | n (v : Nat)
  | list (v : List PyVal)
  | dict (v : List (List Nat × PyVal))
  | none

/-- A Python dictionary with string keys, as an ordered association list. -/
abbrev PyDict := List (List Nat × PyVal)

/-- Python `d.get(k, default)`. -/
def pyGetD (d : PyDict) (k : List Nat) (dflt : PyVal) : PyVal :=
  match d.lookup k with
  | some v => v
  | Option.none => dflt

/-- Whether a dictionary contains a key. -/
def hasKey (d : PyDict) (k : List Nat) : Bool := (d.lookup k).isSome

/-- Python `d[k] = v`: overwrite in place if the key exists, else append. -/
def pySetItem (d : PyDict) (k : List Nat) (v : PyVal) : PyDict :=
  if hasKey d k then d.map (fun kv => if kv.1 == k then (kv.1, v) else kv)
  else d ++ [(k, v)]

/-- Python truthiness of a value. -/
def pyTruthy : PyVal → Bool
  | .s v => !v.isEmpty
  | .b v => v
  | .n v => v != 0
  | .list v => !v.isEmpty
  | .dict v => !v.isEmpty
  | .none => false

/-- Truthiness of `d.get(k)` (`None`, hence falsy, when the key is missing). -/
def pyTruthyGet (d : PyDict) (k : List Nat) : Bool :=
  match d.lookup k with
  | some v => pyTruthy v
  | Option.none => false

/-- Python `len`. Only strings, lists and dicts reach `len` in the modelled
paths. -/
def pyLen : PyVal → Nat
  | .s v => v.length
  | .list v => v.length
  | .dict v => v.length
  | _ => 0

/-- Rendering of a value inside an f-string. Only string values and `None`
reach this rendering in the modelled paths. -/
def pyStrOf : Option PyVal → List Nat
  | some (.s v) => v
  | Option.none => str "None"
  | some _ => str "<value>"

/-! ### Database tools (`src/backend/src/tools.py`) -/

/-- Result of `cursor.execute` + `fetchall` on a statement, supplied by the
database oracle: column names with raw row tuples, or an `sqlite3.Error`
with its message and type name; both carry the measured duration. -/
inductive DbExec where
  | ok (columns : List (List Nat)) (rows : List (List PyVal)) (time : Nat)
  | err (msg : List Nat) (etype : List Nat) (time : Nat)

/-- Model of a `DatabaseTools` instance. The live SQLite state is abstracted
by oracle functions giving what each read observes; the dictionaries built by
the unavailable-database branches and by `execute_sql` are modelled exactly,
those built by the available branches of the three introspection tools are
supplied by the oracles. -/
structure DatabaseTools where
  available : Bool
  exec : List Nat → DbExec
  schemaResult : Option (List Nat) → PyDict
  exploreResult : List Nat → Option (List Nat) → Nat → PyDict
  statsResult : PyDict

/-- `DatabaseTools.__init__` / `_connect` (tools.py lines 15-34): a missing
path, or a connection error, sets `available = false`; construction itself is
total and never raises. -/
def mkDatabaseTools (pathExists connectOk : Bool) (exec : List Nat → DbExec)
    (schemaResult : Option (List Nat) → PyDict)
    (exploreResult : List Nat → Option (List Nat) → Nat → PyDict)
    (statsResult : PyDict) : DatabaseTools :=
  { available := pathExists && connectOk, exec := exec, schemaResult := schemaResult,
    exploreResult := exploreResult, statsResult := statsResult }

/-- `DatabaseTools.get_schema_info` (tools.py lines 36-95). -/
def DatabaseTools.get_schema_info (db : DatabaseTools)
    (table_name : Option (List Nat)) : PyDict :=
  if !db.available then [(str "error", .s (str "Database not available"))]
  else db.schemaResult table_name

/-- `DatabaseTools.explore_data` (tools.py lines 97-163). -/
def DatabaseTools.explore_data (db : DatabaseTools) (table_name : List Nat)
    (column_name : Option (List Nat)) (sample_size : Nat) : PyDict :=
  if !db.available then [(str "error", .s (str "Database not available"))]
  else db.exploreResult table_name column_name sample_size

/-- `DatabaseTools.get_table_stats` (tools.py lines 165-195). -/
def DatabaseTools.get_table_stats (db : DatabaseTools) : PyDict :=
  if !db.available then [(str "error", .s (str "Database not available"))]
  else db.statsResult

/-- `dict(zip(columns, row))` applied to each fetched row. -/
def zipRows (columns : List (List Nat)) (rows : List (List PyVal)) : List PyVal :=
  rows.map (fun r => PyVal.dict (columns.zip r))

/-- `DatabaseTools.execute_sql` (tools.py lines 234-279). -/
def DatabaseTools.execute_sql (db : DatabaseTools) (sql : List Nat) : PyDict :=
  if !db.available then
    [(str "success", .b false), (str "error", .s (str "Database not available"))]
  else
    match db.exec sql with
    | .ok columns rows t =>
      [(str "success", .b true), (str "sql", .s sql),
       (str "columns", .list (columns.map PyVal.s)),
       (str "results", .list (zipRows columns rows)),
       (str "row_count", .n (zipRows columns rows).length),
       (str "execution_time", .n t)]
    | .err msg etype t =>
      [(str "success", .b false), (str "sql", .s sql), (str "error", .s msg),
       (str "error_type", .s etype), (str "execution_time", .n t)]

/-! ### Tool dispatch (`SQLAgent._execute_tool`, agent.py lines 157-187) -/

/-- A tool invocation request from the LLM: the four dispatched tools with
their argument records (the 5-row default of `sample_size` is applied at the
dispatch site in the source), or an unknown tool name. -/
inductive ToolCall where
  | get_schema_info (table_name : Option (List Nat))
  | explore_data (table_name : List Nat) (column_name : Option (List Nat)) (sample_size : Nat)
  | get_table_stats
  | execute_sql (sql : List Nat)
  | unknown (name : List Nat)

/-- The Python name of a tool call (`function_call.name`). -/
def ToolCall.pyName : ToolCall → List Nat
  | .get_schema_info _ => str "get_schema_info"
  | .explore_data _ _ _ => str "explore_data"
  | .get_table_stats => str "get_table_stats"
  | .execute_sql _ => str "execute_sql"
  | .unknown n => n

/-- `SQLAgent._execute_tool`. Besides the tool result, the model returns the
list of SQL strings passed on to `DatabaseTools.execute_sql`
(instrumentation recording what reaches the database layer; empty when
validation rejects). -/
def executeTool (db : DatabaseTools) : ToolCall → PyDict × List (List Nat)
  | .get_schema_info t => (db.get_schema_info t, [])
  | .explore_data t c n => (db.explore_data t c n, [])
  | .get_table_stats => (db.get_table_stats, [])
  | .execute_sql sql =>
    let v := validate_sql sql
    if !v.is_valid then
      ([(str "success", .b false), (str "error", .s v.message), (str "sql", .s sql)], [])
    else
      let sql_to_execute := match v.modified_sql with
        | some m => if m.isEmpty then sql else m
        | Option.none => sql
      if (match v.modified_sql with
          | some m => !m.isEmpty && m != sql
          | Option.none => false) then
        (pySetItem (db.execute_sql sql_to_execute) (str "validation_message") (.s v.message),
          [sql_to_execute])
      else
        (db.execute_sql sql_to_execute, [sql_to_execute])
  | .unknown n => ([(str "error", .s (str "Unknown tool: " ++ n))], [])

/-! ### Claim C2 -/

/-- C2: the `execute_sql` dispatch invokes the safety validator before any
database access: on validation failure it returns
`{success: false, error: message, sql: original}` and no statement reaches
the database layer; when validation rewrites the SQL, the rewritten
statement is the one executed and the validation message is attached under
`validation_message`. -/
theorem dispatch_validates_first (db : DatabaseTools) (sql : List Nat) :
    ((validate_sql sql).is_valid = false →
      executeTool db (.execute_sql sql) =
        ([(str "success", .b false), (str "error", .s (validate_sql sql).message),
          (str "sql", .s sql)], [])) ∧
    (∀ m, (validate_sql sql).is_valid = true → (validate_sql sql).modified_sql = some m →
      m ≠ [] → m ≠ sql →
      executeTool db (.execute_sql sql) =
        (pySetItem (db.execute_sql m) (str "validation_message")
          (.s (validate_sql sql).message), [m])) := by
  constructor
  · intro hinv
    simp [executeTool, hinv]
  · intro m hv hm hne hneq
    have hney : (m == sql) = false := by
      simpa using hneq
    have hnem : m.isEmpty = false := by
      simpa using hne
    simp [executeTool, hv, hm, hnem, hney, hneq]

/-- A sample available database whose oracle answers every statement with a
one-column, one-row result. -/
def sampleDb : DatabaseTools :=
  mkDatabaseTools true true
    (fun _ => .ok [str "name"] [[.s (str "Bob")]] 3)
    (fun _ => [(str "type", .s (str "all_tables"))])
    (fun _ _ _ => [(str "type", .s (str "sample_rows"))])
    [(str "type", .s (str "table_stats"))]

/-- Witness for C2: a blocked statement is rejected without reaching the
database; a plain SELECT is rewritten and executed with the message attached. -/
theorem dispatch_validates_first_witness :
    executeTool sampleDb (.execute_sql (str "DROP TABLE users")) =
      ([(str "success", .b false),
        (str "error", .s (validate_sql (str "DROP TABLE users")).message),
        (str "sql", .s (str "DROP TABLE users"))], []) ∧
    executeTool sampleDb (.execute_sql (str "SELECT * FROM users")) =
      (pySetItem (sampleDb.execute_sql (str "SELECT * FROM users LIMIT 100"))
        (str "validation_message") (.s (validate_sql (str "SELECT * FROM users")).message),
        [str "SELECT * FROM users LIMIT 100"]) :=
  ⟨(dispatch_validates_first sampleDb (str "DROP TABLE users")).1 (by decide),
   (dispatch_validates_first sampleDb (str "SELECT * FROM users")).2
      (str "SELECT * FROM users LIMIT 100") (by decide) (by decide) (by decide) (by decide)⟩

/-! ### Claim C7 -/

/-- C7: constructing `DatabaseTools` on a non-existent database path is total
(never raises), yields `available = false`, and every subsequent call to
`get_schema_info`, `explore_data`, `get_table_stats` or `execute_sql` returns
a structured mapping containing an `error` field. -/
theorem unavailable_database_errors (connectOk : Bool) (exec : List Nat → DbExec)
    (schemaResult : Option (List Nat) → PyDict)
    (exploreResult : List Nat → Option (List Nat) → Nat → PyDict) (statsResult : PyDict)
    (t : Option (List Nat)) (tbl : List Nat) (col : Option (List Nat)) (n : Nat)
    (sql : List Nat) :
    (mkDatabaseTools false connectOk exec schemaResult exploreResult statsResult).available
        = false ∧
    hasKey ((mkDatabaseTools false connectOk exec schemaResult exploreResult
      statsResult).get_schema_info t) (str "error") = true ∧
    hasKey ((mkDatabaseTools false connectOk exec schemaResult exploreResult
      statsResult).explore_data tbl col n) (str "error") = true ∧
    hasKey ((mkDatabaseTools false connectOk exec schemaResult exploreResult
      statsResult).get_table_stats) (str "error") = true ∧
    hasKey ((mkDatabaseTools false connectOk exec schemaResult exploreResult
      statsResult).execute_sql sql) (str "error") = true :=
  ⟨rfl, rfl, rfl, rfl, rfl⟩

/-! ### The orchestrator (`SQLAgent.process_question`, agent.py lines 211-471) -/

/-- Positive keywords of `SQLAgent._is_sql_request` (agent.py lines 191-196). -/
def SQL_KEYWORDS : List (List Nat) :=
  [str "show", str "list", str "get", str "find", str "fetch", str "retrieve", str "display",
   str "what are", str "how many", str "count", str "total", str "sum", str "average",
   str "top", str "bottom", str "first", str "last", str "all", str "sql", str "query",
   str "write query", str "create query", str "generate sql", str "select"]

/-- Negative keywords of `SQLAgent._is_sql_request` (agent.py lines 198-201). -/
def NON_SQL_KEYWORDS : List (List Nat) :=
  [str "what is", str "explain", str "how does", str "why", str "difference between",
   str "definition", str "meaning", str "purpose", str "concept"]

/-- `SQLAgent._is_sql_request` (agent.py lines 189-209). -/
def is_sql_request (question : List Nat) : Bool :=
  let question_lower := pyStrip (pyLower question)
  if NON_SQL_KEYWORDS.any (fun kw => pyIn kw question_lower) then false
  else SQL_KEYWORDS.any (fun kw => pyIn kw question_lower)

/-- The observable outcome of one `chat.send_message` call: a transport
exception (`e` the rendered exception text), or a response whose first part
is a function call, is a text, is neither, or whose candidate content has no
parts at all. -/
inductive LLMTurn where
  | toolCall (tc : ToolCall)
  | text (t : List Nat)
  | emptyParts
  | otherPart
  | transportError (e : List Nat)

/-- The environment of one `process_question` invocation: the LLM transport
(`llm k` is the outcome of the k-th `send_message`, k = 0 being the initial
question turn), the database tools, the JSON rendering of argument bags
(`json.dumps`, opaque), and the regex-based SQL recovery from free text
(`re.findall` plus candidate selection, opaque; `none` models no match). -/
structure AgentEnv where
  llm : Nat → LLMTurn
  db : DatabaseTools
  dumpArgs : ToolCall → List Nat
  extract : List Nat → Option (List Nat)

/-- One entry of `ReasoningTrace.steps` (display.py lines 22-29). -/
def mkStep (n : Nat) (title content icon : List Nat) : PyVal :=
  .dict [(str "step", .n n), (str "title", .s title), (str "content", .s content),
         (str "icon", .s icon)]

/-- State threaded through the orchestration loop: the reasoning trace, the
last tool result, and instrumentation (SQL reaching the database layer,
tools dispatched). -/
structure LoopState where
  steps : List PyVal
  nsteps : Nat
  last : Option PyDict
  sqlSent : List (List Nat)
  tools : List ToolCall

/-- `ReasoningTrace.add_step`. -/
def LoopState.addStep (st : LoopState) (title content icon : List Nat) : LoopState :=
  { st with
    steps := st.steps ++ [mkStep (st.nsteps + 1) title content icon],
    nsteps := st.nsteps + 1 }

/-- The full outcome dictionary built by the terminal branches of
`process_question` (`result` holds `columns` and `rows` nested; `error` is
present only on the loop-exhaustion outcome). -/
structure QueryOutcome where
  success : Bool
  question : List Nat
  summary : List Nat
  reasoning : List PyVal
  sql : PyVal
  columns : PyVal
  rows : PyVal
  status : List Nat
  error : Option (List Nat)
  databaseAvailable : Bool
  isSqlRequest : Bool

/-- The value returned by `process_question`: a full outcome, or the short
transport-failure dictionary `{"success": False, "error": e}` that carries
none of the other keys. -/
inductive AgentReturn where
  | transportFailure (error : List Nat)
  | outcome (o : QueryOutcome)

/-- The full outcome, when there is one. -/
def AgentReturn.outcome? : AgentReturn → Option QueryOutcome
  | .outcome o => some o
  | _ => Option.none

/-- A run's returned value plus instrumentation: the final collected
reasoning steps, the SQL strings that reached the database layer, and the
tools dispatched, in order. -/
structure RunResult where
  ret : AgentReturn
  steps : List PyVal
  sqlSent : List (List Nat)
  tools : List ToolCall

/-- The loop-exhaustion / no-content outcome (agent.py lines 436-471). -/
def errorOutcome (env : AgentEnv) (question : List Nat) (isReq : Bool)
    (st : LoopState) : RunResult :=
  let data := match st.last with
    | some d =>
      if d.isEmpty then (PyVal.s [], PyVal.list [], PyVal.list [], ([] : List Nat))
      else (pyGetD d (str "sql") (.s []), pyGetD d (str "results") (.list []),
            pyGetD d (str "columns") (.list []),
            str "Query executed with "
              ++ str (Nat.repr (pyLen (pyGetD d (str "results") (.list []))))
              ++ str " results")
    | Option.none => (PyVal.s [], PyVal.list [], PyVal.list [], ([] : List Nat))
  let summary :=
    if data.2.2.2.isEmpty then str "Agent could not complete the task fully" else data.2.2.2
  { ret := .outcome {
      success := false, question := question, summary := summary,
      reasoning := st.steps.take 2, sql := data.1,
      columns := data.2.2.1, rows := data.2.1,
      status := str "error", error := some (str "Agent did not complete the task"),
      databaseAvailable := env.db.available, isSqlRequest := isReq },
    steps := st.steps, sqlSent := st.sqlSent, tools := st.tools }

/-- A key point derived from the answer text (agent.py lines 403-407). -/
def keyPoint (n : Nat) (detail : List Nat) : PyVal :=
  .dict [(str "step", .s (str "Point " ++ str (Nat.repr n))), (str "detail", .s detail),
         (str "icon", .s (str "💡"))]

/-- The line-scanning loop collecting up to two key points
(agent.py lines 400-409). -/
def collectPoints : List (List Nat) → Nat → List PyVal
  | [], _ => []
  | l :: ls, k =>
    let line := pyStrip l
    if line.isEmpty || pyStartsWith line (str "#") then collectPoints ls k
    else if k + 1 ≥ 2 then [keyPoint (k + 1) line]
    else keyPoint (k + 1) line :: collectPoints ls (k + 1)

/-- Python `text.split('. ')` (46 and 32 are the code points of `.` and the
space). -/
def splitDotSpace : List Nat → List (List Nat)
  | [] => [[]]
  | 46 :: 32 :: rest => [] :: splitDotSpace rest
  | c :: rest =>
    match splitDotSpace rest with
    | [] => [[c]]
    | h :: t2 => (c :: h) :: t2

/-- The two fallback points built from sentence splitting
(agent.py lines 412-417). -/
def fallbackPoints (text : List Nat) : List PyVal :=
  let sentences := splitDotSpace (text.map (fun c => if c = 10 then 32 else c))
  [keyPoint 1 (sentences.headD [] ++ str "."),
   keyPoint 2 (match sentences with
     | _ :: s1 :: _ => s1 ++ str "."
     | _ => str "Additional context provided above.")]

/-- `sql`/`rows`/`columns` harvested from the last tool result
(agent.py lines 334-342). -/
def harvestLast (last : Option PyDict) : PyVal × PyVal × PyVal :=
  match last with
  | some d =>
    if d.isEmpty then (PyVal.s [], PyVal.list [], PyVal.list [])
    else (pyGetD d (str "sql") (.s []), pyGetD d (str "results") (.list []),
          pyGetD d (str "columns") (.list []))
  | Option.none => (PyVal.s [], PyVal.list [], PyVal.list [])

/-- The regex-recovery path (agent.py lines 344-377): when the question asked
for SQL but none was captured, try to extract a statement from the answer
text and, if a database is available, execute it to backfill rows and
columns. Returns the updated `(sql, rows, columns)` triple and loop state. -/
def recoverSql (env : AgentEnv) (isReq : Bool) (t : List Nat) (st : LoopState)
    (sql0 rows0 cols0 : PyVal) : PyVal × PyVal × PyVal × LoopState :=
  if isReq && !pyTruthy sql0 && !t.isEmpty then
    if pyIn (str "select") (pyLower t) || pyIn (str "sql") (pyLower t) then
      match env.extract t with
      | some cand =>
        let sqlR := pyStrip cand
        if !sqlR.isEmpty && env.db.available then
          let r := executeTool env.db (.execute_sql sqlR)
          let st2 := { st with
            sqlSent := st.sqlSent ++ r.2,
            tools := st.tools ++ [ToolCall.execute_sql sqlR] }
          if pyTruthyGet r.1 (str "success") then
            (PyVal.s sqlR, pyGetD r.1 (str "results") (.list []),
             pyGetD r.1 (str "columns") (.list []),
             st2.addStep (str "Query executed")
               (str "Found " ++ str (Nat.repr (pyLen (pyGetD r.1 (str "results") (.list []))))
                 ++ str " result(s)")
               (str "✓"))
          else (PyVal.s sqlR, rows0, cols0, st2)
        else (PyVal.s sqlR, rows0, cols0, st)
      | Option.none => (sql0, rows0, cols0, st)
    else (sql0, rows0, cols0, st)
  else (sql0, rows0, cols0, st)

/-- The response formatting of the final-text branch
(agent.py lines 379-432), applied to the recovered
`(sql, rows, columns, state)` tuple. -/
def buildFinal (env : AgentEnv) (question : List Nat) (isReq : Bool) (t : List Nat)
    (v : PyVal × PyVal × PyVal × LoopState) : RunResult :=
  if isReq && pyTruthy v.1 then
    { ret := .outcome {
        success := true, question := question, summary := [],
        reasoning := [], sql := v.1, columns := v.2.2.1, rows := v.2.1,
        status := if pyTruthy v.2.1 then str "success" else str "empty",
        error := Option.none,
        databaseAvailable := env.db.available, isSqlRequest := true },
      steps := v.2.2.2.steps, sqlSent := v.2.2.2.sqlSent, tools := v.2.2.2.tools }
  else
    let answer_lines := (pyStrip t).splitOn 10
    let key_points0 := collectPoints answer_lines 0
    let key_points := if key_points0.length < 2 then fallbackPoints t else key_points0
    { ret := .outcome {
        success := true, question := question, summary := t,
        reasoning := key_points.take 2, sql := .s [],
        columns := .list [], rows := .list [],
        status := str "success", error := Option.none,
        databaseAvailable := env.db.available, isSqlRequest := false },
      steps := v.2.2.2.steps, sqlSent := v.2.2.2.sqlSent, tools := v.2.2.2.tools }

/-- The final-text branch of the loop (agent.py lines 313-432). The `try`
around the recovery execution is not modelled since the modelled dispatch is
total. -/
def successOutcome (env : AgentEnv) (question : List Nat) (isReq : Bool)
    (t : List Nat) (st : LoopState) : RunResult :=
  let st := st.addStep (str "Generating response") (str "Creating human-readable summary")
    (str "💬")
  let data := harvestLast st.last
  buildFinal env question isReq t (recoverSql env isReq t st data.1 data.2.1 data.2.2)

/-- The short transport-failure return (agent.py lines 245-249 and 307-311). -/
def transportOutcome (e : List Nat) (st : LoopState) : RunResult :=
  { ret := .transportFailure e, steps := st.steps, sqlSent := st.sqlSent, tools := st.tools }

/-- The state update of one tool-call iteration (agent.py lines 266-291):
record the "Calling tool" step, dispatch, capture `last_result`, and record
the "Query failed" step when an `execute_sql` call did not succeed. -/
def stepState (env : AgentEnv) (tc : ToolCall) (st : LoopState) : LoopState :=
  let st := st.addStep (str "Calling tool: " ++ tc.pyName)
    (str "Arguments: " ++ env.dumpArgs tc) (str "🔧")
  let r := executeTool env.db tc
  let st := { st with
    last := some r.1,
    sqlSent := st.sqlSent ++ r.2,
    tools := st.tools ++ [tc] }
  if tc.pyName == str "execute_sql" && !pyTruthyGet r.1 (str "success") then
    st.addStep (str "Query failed, analyzing error")
      (str "Error: " ++ pyStrOf (r.1.lookup (str "error"))) (str "⚠️")
  else st

/-- The bounded tool-calling loop (agent.py lines 252-434): `fuel` is the
remaining iteration budget (initially `max_iterations = 10`), `k` the index
of the `send_message` whose response is being examined; after dispatching a
tool the result is sent back (send `k + 1`), whose transport failure is
terminal. -/
def runLoop (env : AgentEnv) (question : List Nat) (isReq : Bool) :
    Nat → Nat → LoopState → RunResult
  | 0, _, st => errorOutcome env question isReq st
  | fuel + 1, k, st =>
    match env.llm k with
    | .transportError e => transportOutcome e st
    | .emptyParts => errorOutcome env question isReq st
    | .otherPart => errorOutcome env question isReq st
    | .text t =>
      if t.isEmpty then errorOutcome env question isReq st
      else successOutcome env question isReq t st
    | .toolCall tc =>
      let st2 := stepState env tc st
      match env.llm (k + 1) with
      | .transportError e => transportOutcome e st2
      | _ => runLoop env question isReq fuel (k + 1) st2

/-- `SQLAgent.process_question` (agent.py lines 211-471). The
`show_reasoning` display calls are pure terminal output and not modelled. -/
def process_question (env : AgentEnv) (question : List Nat) : RunResult :=
  let isReq := is_sql_request question
  let st : LoopState :=
    { steps := [mkStep 1 (str "Analyzing question")
        (str "User asked: '" ++ question ++ str "'"
          ++ (if isReq then str " [SQL requested]" else []))
        (str "📋")],
      nsteps := 1, last := Option.none, sqlSent := [], tools := [] }
  runLoop env question isReq 10 0 st

/-! ### Structural lemmas about the terminal branches -/

/-- Every return of the response-formatting branch is a full outcome. -/
theorem buildFinal_full (env : AgentEnv) (q : List Nat) (isReq : Bool) (t : List Nat)
    (v : PyVal × PyVal × PyVal × LoopState) :
    ((buildFinal env q isReq t v).ret.outcome?).isSome = true := by
  unfold buildFinal
  split
  · rfl
  · rfl

/-- Every return of the final-text branch is a full outcome. -/
theorem successOutcome_full (env : AgentEnv) (q : List Nat) (isReq : Bool) (t : List Nat)
    (st : LoopState) : ((successOutcome env q isReq t st).ret.outcome?).isSome = true := by
  unfold successOutcome
  exact buildFinal_full _ _ _ _ _

/-- Every return of the loop-exhaustion branch is a full outcome. -/
theorem errorOutcome_full (env : AgentEnv) (q : List Nat) (isReq : Bool) (st : LoopState) :
    ((errorOutcome env q isReq st).ret.outcome?).isSome = true := rfl

/-! ### Claim C3 -/

/-- An environment whose LLM transport raises on every send. -/
def transportEnv : AgentEnv :=
  { llm := fun _ => .transportError (str "boom"), db := sampleDb,
    dumpArgs := fun _ => str "args", extract := fun _ => Option.none }

/-- C3 is false as stated: on an LLM transport failure `process_question`
returns only the short `{"success": False, "error": e}` dictionary, which is
not a `QueryOutcome` carrying the keys `question`, `summary`, `reasoning`,
`sql`, `columns`/`rows`, `status`, `databaseAvailable`, `isSqlRequest`. -/
theorem transport_failure_short_cex :
    (process_question transportEnv (str "hi")).ret = .transportFailure (str "boom") ∧
    (process_question transportEnv (str "hi")).ret.outcome? = Option.none :=
  ⟨rfl, rfl⟩

/-- C3 (amended): the orchestrator is total — it catches transport failures
and returns `{success: false, error}` for them, and on every run in which no
send raises, the caller receives a full `QueryOutcome`. -/
theorem no_transport_full_outcome (env : AgentEnv) (question : List Nat)
    (h : ∀ k e, env.llm k ≠ .transportError e) :
    ((process_question env question).ret.outcome?).isSome = true := by
  unfold process_question
  generalize (is_sql_request question) = isReq
  suffices hloop : ∀ fuel k st,
      ((runLoop env question isReq fuel k st).ret.outcome?).isSome = true by
    exact hloop 10 0 _
  intro fuel
  induction fuel with
  | zero => intro k st; exact errorOutcome_full _ _ _ _
  | succ fuel ih =>
    intro k st
    cases hk : env.llm k with
    | transportError e => exact absurd hk (h k e)
    | emptyParts => simp only [runLoop, hk]; exact errorOutcome_full _ _ _ _
    | otherPart => simp only [runLoop, hk]; exact errorOutcome_full _ _ _ _
    | text t =>
      simp only [runLoop, hk]
      split
      · exact errorOutcome_full _ _ _ _
      · exact successOutcome_full _ _ _ _ _
    | toolCall tc =>
      simp only [runLoop, hk]
      cases hk2 : env.llm (k + 1) with
      | transportError e => exact absurd hk2 (h (k + 1) e)
      | emptyParts => simp only [hk2]; exact ih (k + 1) _
      | otherPart => simp only [hk2]; exact ih (k + 1) _
      | text t => simp only [hk2]; exact ih (k + 1) _
      | toolCall tc2 => simp only [hk2]; exact ih (k + 1) _

/-- An environment that always answers with plain text. -/
def textEnv : AgentEnv :=
  { llm := fun _ => .text (str "Hello."), db := sampleDb,
    dumpArgs := fun _ => str "args", extract := fun _ => Option.none }

/-- Witness for the amended C3: the non-raising text environment yields a
full outcome. -/
theorem no_transport_full_outcome_witness :
    (∀ k e, textEnv.llm k ≠ LLMTurn.transportError e) ∧
    ((process_question textEnv (str "hello")).ret.outcome?).isSome = true :=
  ⟨fun k e => by simp [textEnv],
   no_transport_full_outcome textEnv (str "hello") (fun k e => by simp [textEnv])⟩

/-! ### Claim C4 -/

/-- The status discipline of the response-formatting branch. -/
theorem buildFinal_status (env : AgentEnv) (q : List Nat) (isReq : Bool) (t : List Nat)
    (v : PyVal × PyVal × PyVal × LoopState) (o : QueryOutcome)
    (h : (buildFinal env q isReq t v).ret = .outcome o) :
    (o.status = str "success" ∨ o.status = str "empty" ∨ o.status = str "error") ∧
    (o.status = str "empty" → o.isSqlRequest = true ∧ pyTruthy o.sql = true ∧
      pyTruthy o.rows = false) := by
  unfold buildFinal at h
  split at h
  · rename_i hguard
    simp only [AgentReturn.outcome.injEq] at h
    subst h
    cases hr : pyTruthy v.2.1 with
    | true =>
      refine ⟨Or.inl rfl, fun hemp => ?_⟩
      have hs : str "success" = str "empty" := hemp
      exact absurd hs (by decide)
    | false =>
      refine ⟨Or.inr (Or.inl rfl), fun _ => ⟨rfl, ?_, rfl⟩⟩
      rw [Bool.and_eq_true] at hguard
      exact hguard.2
  · simp only [AgentReturn.outcome.injEq] at h
    subst h
    refine ⟨Or.inl rfl, fun hemp => ?_⟩
    have hs : str "success" = str "empty" := hemp
    exact absurd hs (by decide)

/-- The status discipline of the final-text branch. -/
theorem successOutcome_status (env : AgentEnv) (q : List Nat) (isReq : Bool) (t : List Nat)
    (st : LoopState) (o : QueryOutcome)
    (h : (successOutcome env q isReq t st).ret = .outcome o) :
    (o.status = str "success" ∨ o.status = str "empty" ∨ o.status = str "error") ∧
    (o.status = str "empty" → o.isSqlRequest = true ∧ pyTruthy o.sql = true ∧
      pyTruthy o.rows = false) := by
  unfold successOutcome at h
  exact buildFinal_status _ _ _ _ _ o h

/-- The status discipline of the loop-exhaustion branch. -/
theorem errorOutcome_status (env : AgentEnv) (q : List Nat) (isReq : Bool)
    (st : LoopState) (o : QueryOutcome)
    (h : (errorOutcome env q isReq st).ret = .outcome o) :
    (o.status = str "success" ∨ o.status = str "empty" ∨ o.status = str "error") ∧
    (o.status = str "empty" → o.isSqlRequest = true ∧ pyTruthy o.sql = true ∧
      pyTruthy o.rows = false) := by
  unfold errorOutcome at h
  simp only [AgentReturn.outcome.injEq] at h
  subst h
  refine ⟨Or.inr (Or.inr rfl), fun hemp => ?_⟩
  have hs : str "error" = str "empty" := hemp
  exact absurd hs (by decide)

/-- The transport-failure return is not a full outcome. -/
theorem transportOutcome_not_full (e : List Nat) (st : LoopState) (o : QueryOutcome)
    (h : (transportOutcome e st).ret = .outcome o) : False := by
  simp [transportOutcome] at h

/-- C4 (amended): every full outcome has `status` among success/empty/error,
and `status = "empty"` occurs only on the SQL-request path with a truthy
captured SQL and falsy rows — including when the capture came from a failed
execution, and with `columns` possibly populated while `rows` is empty. -/
theorem status_invariant (env : AgentEnv) (question : List Nat) (o : QueryOutcome)
    (h : (process_question env question).ret = .outcome o) :
    (o.status = str "success" ∨ o.status = str "empty" ∨ o.status = str "error") ∧
    (o.status = str "empty" → o.isSqlRequest = true ∧ pyTruthy o.sql = true ∧
      pyTruthy o.rows = false) := by
  revert o
  unfold process_question
  generalize is_sql_request question = isReq
  suffices hloop : ∀ fuel k st o, (runLoop env question isReq fuel k st).ret = .outcome o →
      (o.status = str "success" ∨ o.status = str "empty" ∨ o.status = str "error") ∧
      (o.status = str "empty" → o.isSqlRequest = true ∧ pyTruthy o.sql = true ∧
        pyTruthy o.rows = false) by
    intro o h
    exact hloop 10 0 _ o h
  intro fuel
  induction fuel with
  | zero => intro k st o h; exact errorOutcome_status _ _ _ _ o h
  | succ fuel ih =>
    intro k st o h
    cases hk : env.llm k with
    | transportError e =>
      simp only [runLoop, hk] at h
      exact absurd h (fun hx => transportOutcome_not_full _ _ o hx)
    | emptyParts =>
      simp only [runLoop, hk] at h
      exact errorOutcome_status _ _ _ _ o h
    | otherPart =>
      simp only [runLoop, hk] at h
      exact errorOutcome_status _ _ _ _ o h
    | text t =>
      simp only [runLoop, hk] at h
      split at h
      · exact errorOutcome_status _ _ _ _ o h
      · exact successOutcome_status _ _ _ _ _ o h
    | toolCall tc =>
      simp only [runLoop, hk] at h
      cases hk2 : env.llm (k + 1) with
      | transportError e =>
        simp only [hk2] at h
        exact absurd h (fun hx => transportOutcome_not_full _ _ o hx)
      | emptyParts => simp only [hk2] at h; exact ih (k + 1) _ o h
      | otherPart => simp only [hk2] at h; exact ih (k + 1) _ o h
      | text t => simp only [hk2] at h; exact ih (k + 1) _ o h
      | toolCall tc2 => simp only [hk2] at h; exact ih (k + 1) _ o h

/-- A database whose oracle returns a one-column, zero-row success for every
statement. -/
def zeroRowDb : DatabaseTools :=
  mkDatabaseTools true true (fun _ => .ok [str "name"] [] 1)
    (fun _ => []) (fun _ _ _ => []) []

/-- One `execute_sql` returning zero rows, then a final text answer. -/
def zeroRowEnv : AgentEnv :=
  { llm := fun k => if k = 0 then .toolCall (.execute_sql (str "SELECT name FROM users"))
      else .text (str "No rows found."),
    db := zeroRowDb, dumpArgs := fun _ => str "args", extract := fun _ => Option.none }

/-- A database whose oracle fails every statement. -/
def failDb : DatabaseTools :=
  mkDatabaseTools true true
    (fun _ => .err (str "no such table: users") (str "OperationalError") 2)
    (fun _ => []) (fun _ _ _ => []) []

/-- One failing `execute_sql`, then a final text answer. -/
def failEnv : AgentEnv :=
  { llm := fun k => if k = 0 then .toolCall (.execute_sql (str "SELECT name FROM users"))
      else .text (str "The query failed."),
    db := failDb, dumpArgs := fun _ => str "args", extract := fun _ => Option.none }

/-- The outcome of the zero-row scenario. -/
def zeroRowOutcome : QueryOutcome where
  success := true
  question := str "show me the names"
  summary := []
  reasoning := []
  sql := .s (str "SELECT name FROM users LIMIT 100")
  columns := .list [.s (str "name")]
  rows := .list []
  status := str "empty"
  error := Option.none
  databaseAvailable := true
  isSqlRequest := true

/-- The outcome of the failing-execution scenario. -/
def failOutcome : QueryOutcome where
  success := true
  question := str "show me the names"
  summary := []
  reasoning := []
  sql := .s (str "SELECT name FROM users LIMIT 100")
  columns := .list []
  rows := .list []
  status := str "empty"
  error := Option.none
  databaseAvailable := true
  isSqlRequest := true

/-- C4 is false as stated, in two ways. A successful zero-row query yields
`status = "empty"` with `columns` populated while `rows` is empty, refuting
"rows and columns are empty together or populated together"; and a failed
execution also yields `status = "empty"` (the only statement that reached the
database errored), refuting "empty only when a SQL query executed
successfully with zero rows". -/
theorem status_invariant_cex :
    (process_question zeroRowEnv (str "show me the names")).ret = .outcome zeroRowOutcome ∧
    zeroRowOutcome.status = str "empty" ∧
    zeroRowOutcome.rows = .list [] ∧ zeroRowOutcome.columns ≠ .list [] ∧
    (process_question failEnv (str "show me the names")).ret = .outcome failOutcome ∧
    failOutcome.status = str "empty" ∧
    (process_question failEnv (str "show me the names")).sqlSent =
      [str "SELECT name FROM users LIMIT 100"] ∧
    failDb.exec (str "SELECT name FROM users LIMIT 100") =
      .err (str "no such table: users") (str "OperationalError") 2 :=
  ⟨rfl, rfl, rfl, by simp [zeroRowOutcome], rfl, rfl, rfl, rfl⟩

/-- Witness for the amended C4 at the zero-row scenario. -/
theorem status_invariant_witness :
    (zeroRowOutcome.status = str "success" ∨ zeroRowOutcome.status = str "empty" ∨
      zeroRowOutcome.status = str "error") ∧
    (zeroRowOutcome.status = str "empty" → zeroRowOutcome.isSqlRequest = true ∧
      pyTruthy zeroRowOutcome.sql = true ∧ pyTruthy zeroRowOutcome.rows = false) :=
  status_invariant zeroRowEnv (str "show me the names") zeroRowOutcome rfl

/-! ### Claim C8 -/

/-- The loop state after `fuel` forced tool-call iterations starting at send
index `k`. -/
def toolIter (env : AgentEnv) (f : Nat → ToolCall) : Nat → Nat → LoopState → LoopState
  | 0, _, st => st
  | fuel + 1, k, st => toolIter env f fuel (k + 1) (stepState env (f k) st)

theorem stepState_last (env : AgentEnv) (tc : ToolCall) (st : LoopState) :
    (stepState env tc st).last = some (executeTool env.db tc).1 := by
  simp only [stepState]
  split
  · rfl
  · rfl

theorem stepState_tools (env : AgentEnv) (tc : ToolCall) (st : LoopState) :
    (stepState env tc st).tools = st.tools ++ [tc] := by
  simp only [stepState]
  split
  · rfl
  · rfl

theorem toolIter_tools_length (env : AgentEnv) (f : Nat → ToolCall) :
    ∀ fuel k st, (toolIter env f fuel k st).tools.length = st.tools.length + fuel := by
  intro fuel
  induction fuel with
  | zero => intro k st; rfl
  | succ fuel ih =>
    intro k st
    rw [toolIter, ih (k + 1) _, stepState_tools]
    simp only [List.length_append, List.length_cons, List.length_nil]
    omega

theorem toolIter_last (env : AgentEnv) (f : Nat → ToolCall) :
    ∀ fuel k st, 0 < fuel →
      (toolIter env f fuel k st).last = some (executeTool env.db (f (k + fuel - 1))).1 := by
  intro fuel
  induction fuel with
  | zero => intro k st h; exact absurd h (by decide)
  | succ fuel ih =>
    intro k st _
    cases fuel with
    | zero =>
      rw [toolIter, toolIter]
      rw [stepState_last]
      simp
    | succ fuel2 =>
      rw [toolIter]
      rw [ih (k + 1) _ (Nat.succ_pos fuel2)]
      have harith : k + 1 + (fuel2 + 1) - 1 = k + (fuel2 + 1 + 1) - 1 := by omega
      rw [harith]

/-- With an LLM that requests a tool on every turn, the loop runs its whole
budget and exits through the loop-exhaustion outcome. -/
theorem runLoop_all_tools (env : AgentEnv) (q : List Nat) (isReq : Bool)
    (f : Nat → ToolCall) (hllm : ∀ k, env.llm k = .toolCall (f k)) :
    ∀ fuel k st, runLoop env q isReq fuel k st
      = errorOutcome env q isReq (toolIter env f fuel k st) := by
  intro fuel
  induction fuel with
  | zero => intro k st; rfl
  | succ fuel ih =>
    intro k st
    have hk := hllm k
    have hk2 := hllm (k + 1)
    simp only [runLoop, hk, hk2]
    rw [toolIter]
    exact ih (k + 1) (stepState env (f k) st)

theorem loop_exhaustion_aux (env : AgentEnv) (q : List Nat) (isReq : Bool)
    (f : Nat → ToolCall) (hllm : ∀ k, env.llm k = .toolCall (f k))
    (hd : (executeTool env.db (f 9)).1 ≠ []) (st0 : LoopState) (h0 : st0.tools = []) :
    (runLoop env q isReq 10 0 st0).tools.length = 10 ∧
    (((runLoop env q isReq 10 0 st0).ret.outcome?).isSome = true) ∧
    ∀ o, (runLoop env q isReq 10 0 st0).ret = .outcome o →
      o.status = str "error" ∧ o.success = false ∧
      o.error = some (str "Agent did not complete the task") ∧
      o.sql = pyGetD (executeTool env.db (f 9)).1 (str "sql") (.s []) ∧
      o.rows = pyGetD (executeTool env.db (f 9)).1 (str "results") (.list []) ∧
      o.columns = pyGetD (executeTool env.db (f 9)).1 (str "columns") (.list []) := by
  rw [runLoop_all_tools env q isReq f hllm 10 0 st0]
  have hlast := toolIter_last env f 10 0 st0 (by decide)
  rw [show (0 : Nat) + 10 - 1 = 9 from rfl] at hlast
  have hie : ((executeTool env.db (f 9)).1).isEmpty = false := by
    cases hcase : (executeTool env.db (f 9)).1 with
    | nil => exact absurd hcase hd
    | cons a l => rfl
  refine ⟨?_, errorOutcome_full _ _ _ _, ?_⟩
  · show (toolIter env f 10 0 st0).tools.length = 10
    rw [toolIter_tools_length, h0]
    rfl
  · intro o h
    unfold errorOutcome at h
    rw [hlast] at h
    simp only [hie, Bool.false_eq_true, if_false, AgentReturn.outcome.injEq] at h
    subst h
    exact ⟨rfl, rfl, rfl, rfl, rfl, rfl⟩

/-- C8: for every LLM behaviour that requests a tool on every turn,
`process_question` performs exactly the 10 budgeted iterations (the model is
structurally terminating for every oracle) and returns — rather than raises —
a full outcome with `status = "error"` and `success = false` that preserves
the partial `sql`/`rows`/`columns` captured from the last tool execution. -/
theorem loop_exhaustion (env : AgentEnv) (question : List Nat) (f : Nat → ToolCall)
    (hllm : ∀ k, env.llm k = .toolCall (f k))
    (hd : (executeTool env.db (f 9)).1 ≠ []) :
    (process_question env question).tools.length = 10 ∧
    ((process_question env question).ret.outcome?).isSome = true ∧
    ∀ o, (process_question env question).ret = .outcome o →
      o.status = str "error" ∧ o.success = false ∧
      o.error = some (str "Agent did not complete the task") ∧
      o.sql = pyGetD (executeTool env.db (f 9)).1 (str "sql") (.s []) ∧
      o.rows = pyGetD (executeTool env.db (f 9)).1 (str "results") (.list []) ∧
      o.columns = pyGetD (executeTool env.db (f 9)).1 (str "columns") (.list []) := by
  unfold process_question
  exact loop_exhaustion_aux env question (is_sql_request question) f hllm hd _ rfl

/-- An environment whose LLM requests `get_table_stats` forever. -/
def toolEnv : AgentEnv :=
  { llm := fun _ => .toolCall .get_table_stats, db := sampleDb,
    dumpArgs := fun _ => str "args", extract := fun _ => Option.none }

/-- Witness for C8: the forever-tool-calling environment runs 10 iterations
and ends in the error outcome preserving the last stats result. -/
theorem loop_exhaustion_witness :
    (process_question toolEnv (str "show stats")).tools.length = 10 ∧
    ((process_question toolEnv (str "show stats")).ret.outcome?).isSome = true ∧
    ∀ o, (process_question toolEnv (str "show stats")).ret = .outcome o →
      o.status = str "error" ∧ o.success = false ∧
      o.error = some (str "Agent did not complete the task") ∧
      o.sql = pyGetD (executeTool toolEnv.db (.get_table_stats)).1 (str "sql") (.s []) ∧
      o.rows = pyGetD (executeTool toolEnv.db (.get_table_stats)).1 (str "results") (.list []) ∧
      o.columns = pyGetD (executeTool toolEnv.db (.get_table_stats)).1 (str "columns")
        (.list []) :=
  loop_exhaustion toolEnv (str "show stats") (fun _ => .get_table_stats)
    (fun _ => rfl) (fun h => List.noConfusion h)

/-! ### Claim C9 -/

/-- Reasoning surfaced by the response-formatting branch: none on the
SQL-request path, at most two key points otherwise. -/
theorem buildFinal_reasoning (env : AgentEnv) (q : List Nat) (isReq : Bool) (t : List Nat)
    (v : PyVal × PyVal × PyVal × LoopState) (o : QueryOutcome)
    (h : (buildFinal env q isReq t v).ret = .outcome o) :
    o.success = true ∧ o.reasoning.length ≤ 2 ∧ (o.isSqlRequest = true → o.reasoning = []) := by
  unfold buildFinal at h
  split at h
  · simp only [AgentReturn.outcome.injEq] at h
    subst h
    exact ⟨rfl, by simp, fun _ => rfl⟩
  · simp only [AgentReturn.outcome.injEq] at h
    subst h
    refine ⟨rfl, ?_, fun hcontra => Bool.noConfusion hcontra⟩
    exact List.length_take_le ..

theorem successOutcome_reasoning (env : AgentEnv) (q : List Nat) (isReq : Bool)
    (t : List Nat) (st : LoopState) (o : QueryOutcome)
    (h : (successOutcome env q isReq t st).ret = .outcome o) :
    o.success = true ∧ o.reasoning.length ≤ 2 ∧ (o.isSqlRequest = true → o.reasoning = []) := by
  unfold successOutcome at h
  exact buildFinal_reasoning _ _ _ _ _ o h

/-- The loop-exhaustion outcome surfaces the first two collected steps. -/
theorem errorOutcome_reasoning (env : AgentEnv) (q : List Nat) (isReq : Bool)
    (st : LoopState) (o : QueryOutcome)
    (h : (errorOutcome env q isReq st).ret = .outcome o) :
    o.success = false ∧ o.reasoning = (errorOutcome env q isReq st).steps.take 2 := by
  unfold errorOutcome at h
  simp only [AgentReturn.outcome.injEq] at h
  subst h
  exact ⟨rfl, rfl⟩

/-- C9 (amended): terminal-success outcomes surface at most two reasoning
entries — none at all on the SQL-request path, and at most two key points
derived from the answer text (not from the collected trace) on the
general-question path; the first-two-collected-steps truncation applies to
the loop-exhaustion (error) outcome. -/
theorem reasoning_surfaced (env : AgentEnv) (question : List Nat) (o : QueryOutcome)
    (h : (process_question env question).ret = .outcome o) :
    (o.success = true → o.reasoning.length ≤ 2 ∧
      (o.isSqlRequest = true → o.reasoning = [])) ∧
    (o.success = false →
      o.reasoning = (process_question env question).steps.take 2) := by
  revert o
  unfold process_question
  generalize is_sql_request question = isReq
  suffices hloop : ∀ fuel k st o, (runLoop env question isReq fuel k st).ret = .outcome o →
      (o.success = true → o.reasoning.length ≤ 2 ∧
        (o.isSqlRequest = true → o.reasoning = [])) ∧
      (o.success = false →
        o.reasoning = (runLoop env question isReq fuel k st).steps.take 2) by
    intro o h
    exact hloop 10 0 _ o h
  intro fuel
  induction fuel with
  | zero =>
    intro k st o h
    obtain ⟨h1, h2⟩ := errorOutcome_reasoning env question isReq st o h
    refine ⟨fun hc => ?_, fun _ => h2⟩
    rw [h1] at hc
    exact Bool.noConfusion hc
  | succ fuel ih =>
    intro k st o h
    cases hk : env.llm k with
    | transportError e =>
      simp only [runLoop, hk] at h
      exact absurd h (fun hx => transportOutcome_not_full _ _ o hx)
    | emptyParts =>
      simp only [runLoop, hk] at h ⊢
      obtain ⟨h1, h2⟩ := errorOutcome_reasoning env question isReq st o h
      refine ⟨fun hc => ?_, fun _ => h2⟩
      rw [h1] at hc
      exact Bool.noConfusion hc
    | otherPart =>
      simp only [runLoop, hk] at h ⊢
      obtain ⟨h1, h2⟩ := errorOutcome_reasoning env question isReq st o h
      refine ⟨fun hc => ?_, fun _ => h2⟩
      rw [h1] at hc
      exact Bool.noConfusion hc
    | text t =>
      simp only [runLoop, hk] at h ⊢
      split at h
      · rename_i hte
        obtain ⟨h1, h2⟩ := errorOutcome_reasoning env question isReq st o h
        refine ⟨fun hc => ?_, fun _ => ?_⟩
        · rw [h1] at hc
          exact Bool.noConfusion hc
        · rw [if_pos hte]
          exact h2
      · rename_i hte
        obtain ⟨h1, h2, h3⟩ := successOutcome_reasoning env question isReq t st o h
        refine ⟨fun _ => ⟨h2, h3⟩, fun hc => ?_⟩
        rw [h1] at hc
        exact Bool.noConfusion hc
    | toolCall tc =>
      simp only [runLoop, hk] at h ⊢
      cases hk2 : env.llm (k + 1) with
      | transportError e =>
        simp only [hk2] at h
        exact absurd h (fun hx => transportOutcome_not_full _ _ o hx)
      | emptyParts => simp only [hk2] at h ⊢; exact ih (k + 1) _ o h
      | otherPart => simp only [hk2] at h ⊢; exact ih (k + 1) _ o h
      | text t => simp only [hk2] at h ⊢; exact ih (k + 1) _ o h
      | toolCall tc2 => simp only [hk2] at h ⊢; exact ih (k + 1) _ o h

/-- An environment that answers a general question with two lines of text. -/
def chatEnv : AgentEnv :=
  { llm := fun _ => .text (str "Cats purr.\nDogs bark."),
    db := sampleDb, dumpArgs := fun _ => str "args", extract := fun _ => Option.none }

/-- The outcome of the two-line general answer. -/
def chatOutcome : QueryOutcome where
  success := true
  question := str "hello there"
  summary := str "Cats purr.\nDogs bark."
  reasoning := [keyPoint 1 (str "Cats purr."), keyPoint 2 (str "Dogs bark.")]
  sql := .s []
  columns := .list []
  rows := .list []
  status := str "success"
  error := Option.none
  databaseAvailable := true
  isSqlRequest := false

/-- C9 is false as stated: on a terminal-success general answer, the two
surfaced reasoning entries are key points fabricated from the answer text,
not the first two collected reasoning steps of the invocation. -/
theorem reasoning_cap_cex :
    (process_question chatEnv (str "hello there")).ret = .outcome chatOutcome ∧
    (process_question chatEnv (str "hello there")).steps =
      [mkStep 1 (str "Analyzing question") (str "User asked: 'hello there'") (str "📋"),
       mkStep 2 (str "Generating response") (str "Creating human-readable summary")
         (str "💬")] ∧
    chatOutcome.reasoning ≠
      List.take 2
        [mkStep 1 (str "Analyzing question") (str "User asked: 'hello there'") (str "📋"),
         mkStep 2 (str "Generating response") (str "Creating human-readable summary")
           (str "💬")] :=
  ⟨rfl, rfl, by simp [chatOutcome, keyPoint, mkStep]⟩

/-- Witness for the amended C9 at the two-line general answer. -/
theorem reasoning_surfaced_witness :
    (chatOutcome.success = true → chatOutcome.reasoning.length ≤ 2 ∧
      (chatOutcome.isSqlRequest = true → chatOutcome.reasoning = [])) ∧
    (chatOutcome.success = false →
      chatOutcome.reasoning = (process_question chatEnv (str "hello there")).steps.take 2) :=
  reasoning_surfaced chatEnv (str "hello there") chatOutcome rfl

end SqlAgent
